import Mathlib

/-!
Verification of the mscp FUSE daemon (NVIDIA/multi-storage-client, Go sources)
against its natural-language specification.

The Go sources are shallowly embedded: pure fragments become Lean functions,
the lock-protected daemon state becomes an explicit state record threaded
through the handlers, machine integers become `Nat` (no arithmetic here comes
near an overflow boundary: sizes, counts and nanosecond durations), Go's
`float64` retry multiplier becomes `ℚ` with explicit truncation where the code
converts back to an integer duration, and fallible code returns `Except`/an
explicit outcome type.  Backend network calls are oracle parameters.
-/

namespace Mscp

/-! ## Linux errno values used by the daemon (syscall package) -/

def ENOENT : Nat := 2
def EBADF : Nat := 9
def EACCES : Nat := 13
def EXDEV : Nat := 18
def ENOTDIR : Nat := 20
def EISDIR : Nat := 21
def ENOSYS : Nat := 38

/-! ## S3 retry policy (config.go lines 840-849, backend_s3.go lines 303-341)

Durations are in nanoseconds, exactly as Go's `time.Duration` stores them
(`parseMilliseconds` multiplies the configured value by `time.Millisecond`
= 1000000).  The `float64` multiplier is modelled as `ℚ`; the conversion
`time.Duration(float64(d) * m)` truncates the (non-negative) product toward
zero, i.e. takes its floor. -/

/-- One step of the schedule generator:
`nextRetryDelay = time.Duration(float64(nextRetryDelay) * retryNextDelayMultiplier)`,
i.e. the product truncated to an integer count of nanoseconds.  Written with
the rational's numerator and denominator so the kernel can evaluate it; the
lemma `nextRetryDelayStep_eq_floor` below identifies it with the floor of the
product for every non-negative multiplier. -/
def nextRetryDelayStep (mult : ℚ) (next : Nat) : Nat :=
  next * mult.num.toNat / mult.den

/-- The generation loop of config.go lines 845-848:
`for nextRetryDelay <= retryMaxDelay { append; next = next * mult }`.
The Go loop has no iteration bound (it diverges for `mult = 1`); the embedding
carries explicit fuel, consumed once per appended element. -/
def retryDelayLoop (mult : ℚ) (retryMaxDelay : Nat) : Nat → Nat → List Nat
  | 0, _ => []
  | fuel + 1, next =>
    if next ≤ retryMaxDelay then
      next :: retryDelayLoop mult retryMaxDelay fuel (nextRetryDelayStep mult next)
    else
      []

/-- The precomputed `retryDelay` slice (config.go lines 840-849): empty when
`retry_base_delay` is 0, otherwise generated by `retryDelayLoop`.  Fuel
`retryMaxDelay + 1` bounds the embedding; it covers every terminating run of
the Go loop whose length is at most that bound. -/
def mscpRetryDelay (retryBaseDelay : Nat) (mult : ℚ) (retryMaxDelay : Nat) : List Nat :=
  if retryBaseDelay = 0 then []
  else retryDelayLoop mult retryMaxDelay (retryMaxDelay + 1) retryBaseDelay

/-- `(backend *backendStruct) MaxAttempts()` (backend_s3.go lines 331-333):
`len(retryDelay) + 1`. -/
def maxAttempts (retryDelay : List Nat) : Nat :=
  retryDelay.length + 1

/-! ## `IsErrorRetryable` (backend_s3.go lines 303-329)

An error returned by an S3 call, as the retryer sees it: absent (`nil`), an
error from which no `*awshttp.ResponseError` can be extracted, or one carrying
an HTTP status code. -/

inductive S3CallError
  | nilError
  | noHTTPResponse
  | httpResponse (statusCode : Nat)

/-- `(backend *backendStruct) IsErrorRetryable(err error) bool`
(backend_s3.go lines 303-329). 429 is `http.StatusTooManyRequests`. -/
def isErrorRetryable : S3CallError → Bool
  | .nilError => false
  | .noHTTPResponse => true
  | .httpResponse statusCode =>
    if statusCode < 400 then true
    else if statusCode = 429 then true
    else if statusCode ≥ 500 then true
    else false

/-! ## Configuration-file extension dispatch and discovery search

config.go lines 245-263 switch on `filepath.Ext(configFilePath)`, accepting
only ".json" and ".yaml"; globals.go lines 229-340 probe the configuration
search path, which includes ".yml" candidates. -/

inductive ConfigFileFormat
  | json
  | yaml
deriving DecidableEq

/-- The extension switch of `checkConfigFile` (config.go lines 247-263). -/
def configFileFormatForExt (ext : String) : Except String ConfigFileFormat :=
  if ext = ".json" then .ok .json
  else if ext = ".yaml" then .ok .yaml
  else .error ("unsupported extension (\"" ++ ext ++
    "\") in config-file - must be one of \".json\" or \".yaml\"")

/-- `filepath.Ext`: the suffix of the path starting at its final dot, scanning
backwards and stopping at a path separator; "" when there is no dot. -/
def filepathExtAux : List Char → List Char → String
  | _, [] => ""
  | acc, c :: rest =>
    if c = '/' then ""
    else if c = '.' then String.mk ('.' :: acc)
    else filepathExtAux (c :: acc) rest

def filepathExt (path : String) : String :=
  filepathExtAux [] path.toList.reverse

/-- The three candidate file names probed under an XDG-style directory
(globals.go lines 247-258 and analogous blocks). -/
def xdgDirCandidates (dir : String) : List String :=
  [dir ++ "/msc/config.yaml", dir ++ "/msc/config.yml", dir ++ "/msc/config.json"]

/-- The ordered candidate paths probed by `initGlobals` (globals.go lines
246-337) after the explicit-argument and `MSC_CONFIG` cases: `XDG_CONFIG_HOME`,
`HOME`-relative paths, `XDG_CONFIG_DIRS` (default `/etc/xdg`), then `/etc`.
An empty string models an unset environment variable. -/
def mscConfigSearchCandidates (xdgConfigHomeEnv homeEnv xdgConfigDirsEnv : String) :
    List String :=
  (if xdgConfigHomeEnv ≠ "" then xdgDirCandidates xdgConfigHomeEnv else [])
    ++ (if homeEnv ≠ "" then
          [homeEnv ++ "/.msc_config.yaml", homeEnv ++ "/.msc_config.yml",
           homeEnv ++ "/.msc_config.json"]
            ++ xdgDirCandidates (homeEnv ++ "/.config")
        else [])
    ++ (if xdgConfigDirsEnv = "" then xdgDirCandidates "/etc/xdg"
        else ((xdgConfigDirsEnv.splitOn ":").map xdgDirCandidates).flatten)
    ++ ["/etc/msc_config.yaml", "/etc/msc_config.yml", "/etc/msc_config.json"]

/-! ## S3 backend context operations (backend_s3.go lines 361-696)

The network is an oracle: an `S3Endpoint` fixes the reply the S3-compatible
endpoint would give to each of the three request kinds an operation can issue.
Each operation returns the ordered list of requests it actually issued
alongside its outcome, so "the main request was never issued" is a statement
about the trace.  Retries live inside the AWS SDK around each individual
request (the custom retryer of `setupS3Context`); the "eTag mismatch" error is
synthesized after `HeadObject` has returned, outside any retried call. -/

/-- `strings.TrimLeft(strings.TrimRight(s, "\""), "\"")`: strip the trailing,
then the leading, double-quote characters of a returned ETag. -/
def trimETagQuotes (s : String) : String :=
  String.mk (((s.toList.reverse.dropWhile (· = '"')).reverse).dropWhile (· = '"'))

structure HeadObjectOutput where
  eTag : Option String
  lastModified : Nat
  contentLength : Nat
deriving DecidableEq

structure GetObjectOutput where
  eTag : Option String
  body : List Nat
deriving DecidableEq

inductive S3Request
  | headObject
  | getObject
  | deleteObject
deriving DecidableEq

/-- The endpoint's replies to the request kinds, standing in for the network. -/
structure S3Endpoint where
  headReply : Except String HeadObjectOutput
  getReply : Except String GetObjectOutput
  deleteReply : Except String Unit

structure ReadFileInput where
  filePath : String
  offsetCacheLine : Nat
  ifMatch : String
deriving DecidableEq

structure ReadFileOutput where
  eTag : String
  buf : List Nat
deriving DecidableEq

structure StatFileInput where
  filePath : String
  ifMatch : String
deriving DecidableEq

structure StatFileOutput where
  eTag : String
  mTime : Nat
  size : Nat
deriving DecidableEq

structure DeleteFileInput where
  filePath : String
  ifMatch : String
deriving DecidableEq

/-- Outcome of an operation: success, a Go error value, or a crash (a nil
pointer dereference in the Go source). -/
inductive OpOutcome (α : Type)
  | ok (a : α)
  | err (e : String)
  | crash

/-- The manual ETag comparison done after a successful `HeadObject` when an
ifMatch precondition was supplied (backend_s3.go lines 401-408, 553-560,
680-687): a mismatch exactly when the precondition is non-empty, the head
reply carried an ETag, and the trimmed ETag differs from the precondition. -/
def eTagMismatch (ifMatch : String) (headETag : Option String) : Bool :=
  if ifMatch = "" then false
  else
    match headETag with
    | some t => ifMatch != trimETagQuotes t
    | none => false

/-- `(s3Context *s3ContextStruct) readFile` (backend_s3.go lines 504-583):
`HeadObject` first (with the IfMatch header also set when non-empty); on
success the manual ETag comparison; only then the ranged `GetObject`. -/
def s3ReadFile (endpoint : S3Endpoint) (input : ReadFileInput) :
    List S3Request × OpOutcome ReadFileOutput :=
  match endpoint.headReply with
  | .error e => ([.headObject], .err e)
  | .ok headOut =>
    if eTagMismatch input.ifMatch headOut.eTag then
      ([.headObject], .err "eTag mismatch")
    else
      match endpoint.getReply with
      | .error e => ([.headObject, .getObject], .err e)
      | .ok getOut =>
        ([.headObject, .getObject],
          .ok { eTag := getOut.eTag.getD "", buf := getOut.body })

/-- `(s3Context *s3ContextStruct) deleteFile` (backend_s3.go lines 361-421). -/
def s3DeleteFile (endpoint : S3Endpoint) (input : DeleteFileInput) :
    List S3Request × OpOutcome Unit :=
  match endpoint.headReply with
  | .error e => ([.headObject], .err e)
  | .ok headOut =>
    if eTagMismatch input.ifMatch headOut.eTag then
      ([.headObject], .err "eTag mismatch")
    else
      match endpoint.deleteReply with
      | .error e => ([.headObject, .deleteObject], .err e)
      | .ok _ => ([.headObject, .deleteObject], .ok ())

/-- `(s3Context *s3ContextStruct) statFile` (backend_s3.go lines 635-696).
The output construction dereferences `*s3HeadObjectOutput.ETag`
unconditionally, hence the crash outcome when the head reply has no ETag. -/
def s3StatFile (endpoint : S3Endpoint) (input : StatFileInput) :
    List S3Request × OpOutcome StatFileOutput :=
  match endpoint.headReply with
  | .error e => ([.headObject], .err e)
  | .ok headOut =>
    if eTagMismatch input.ifMatch headOut.eTag then
      ([.headObject], .err "eTag mismatch")
    else
      match headOut.eTag with
      | none => ([.headObject], .crash)
      | some t =>
        ([.headObject],
          .ok { eTag := trimETagQuotes t, mTime := headOut.lastModified,
                size := headOut.contentLength })

/-! ## Dialect-0 ("client-compatible") profile translation (config.go lines
274-498)

A JSON/YAML subtree is modelled at the granularity `checkConfigFile` inspects
it: a key can be absent, present with the wrong shape, or well-shaped.  Leaf
strings read through `parseString` with no default collapse "missing" and
"not a string" into one error, so an `Option String` suffices for them.
`net/url.Parse` (standard-library code) is modelled as a pre-parsed
scheme/host/path triple; the scheme restriction of config.go lines 418-426 is
the daemon's own check and is kept. -/

inductive Field (α : Type)
  | absent
  | bad
  | val (a : α)
deriving DecidableEq

structure EndpointURL where
  scheme : String
  host : String
  path : String
deriving DecidableEq

structure SPOptions where
  basePath : Option String
  endpointURL : Option EndpointURL
  regionName : Option String
deriving DecidableEq

structure StorageProvider where
  typeName : Option String
  options : Field SPOptions
deriving DecidableEq

structure CPOptions where
  accessKey : Option String
  secretKey : Option String
deriving DecidableEq

structure CredentialsProvider where
  typeName : Option String
  options : Field CPOptions
deriving DecidableEq

structure Profile where
  storageProvider : Field StorageProvider
  credentialsProvider : Field CredentialsProvider
deriving DecidableEq

structure CompatS3Config where
  accessKeyID : String
  secretAccessKey : String
  region : String
  endpoint : String
  allowHTTP : Bool
deriving DecidableEq

/-- The native backend map synthesized for one accepted profile
(config.go lines 428-444). -/
structure CompatBackend where
  dirName : String
  bucketContainerName : String
  prefixStr : String
  backendTypeName : String
  s3 : CompatS3Config
deriving DecidableEq

/-- `strings.Split(s, "/")` on the character list: every maximal
slash-free run, in order; never the empty list. -/
def splitCharsOnSlash : List Char → List (List Char)
  | [] => [[]]
  | c :: rest =>
    let r := splitCharsOnSlash rest
    if c = '/' then [] :: r
    else
      match r with
      | [] => [[c]]
      | h :: t => (c :: h) :: t

/-- `strings.Split(basePath, "/")`. -/
def splitOnSlash (s : String) : List String :=
  (splitCharsOnSlash s.toList).map String.mk

/-- `strings.Join(parts, "/")`. -/
def joinWithSlash : List String → String
  | [] => ""
  | [x] => x
  | x :: rest => x ++ "/" ++ joinWithSlash rest

/-- `strings.HasSuffix(s, "/")`: the last character is a slash. -/
def endsWithSlash (s : String) : Bool :=
  match s.toList.getLast? with
  | some c => c = '/'
  | none => false

/-- The bucket/container part of the `base_path` split (config.go lines
402-416): the first `strings.Split(basePath, "/")` segment.  `strings.Split`
never returns an empty slice, so the `case 0` error branch is unreachable. -/
def basePathBucketContainerName (basePath : String) : String :=
  match splitOnSlash basePath with
  | [] => ""
  | b :: _ => b

/-- The prefix part of the `base_path` split (config.go lines 402-416): with
at least two segments, the re-joined remainder with a trailing "/" appended
when missing — with no guard for an empty remainder. -/
def basePathPrefix (basePath : String) : String :=
  match splitOnSlash basePath with
  | [] => ""
  | [_] => ""
  | _ :: rest =>
    let p := joinWithSlash rest
    if endsWithSlash p then p else p ++ "/"

/-- The claim's reading of the same split, stated from the spec's words for
comparison with the source's `basePathPrefix`: "the remainder, if non-empty,
becomes the prefix with a trailing '/' appended when missing" — i.e. an empty
remainder yields an empty prefix. -/
def basePathPrefixPerClaim (basePath : String) : String :=
  match splitOnSlash basePath with
  | [] => ""
  | [_] => ""
  | _ :: rest =>
    let p := joinWithSlash rest
    if p = "" then "" else if endsWithSlash p then p else p ++ "/"

inductive ProfileTranslation
  | skipped
  | failed (e : String)
  | backend (b : CompatBackend)
deriving DecidableEq

/-- The body of the dialect-0 per-profile loop (config.go lines 289-445),
deciding for one named profile whether it is skipped, rejected with an error,
or synthesized into one native backend. -/
def translateProfile (profileName : String) (p : Option Profile) : ProfileTranslation :=
  match p with
  | none => .failed ("bad profile \"" ++ profileName ++ "\"")
  | some prof =>
    match prof.storageProvider with
    | .absent => .skipped
    | .bad => .failed ("bad profile \"" ++ profileName ++ "\" storage_provider")
    | .val sp =>
      match sp.typeName with
      | none =>
        .failed ("missing or bad profile \"" ++ profileName ++ "\" storage_provider type")
      | some storageProviderType =>
        if storageProviderType = "s3" ∨ storageProviderType = "s8k" then
          match sp.options with
          | .absent =>
            .failed ("missing profile \"" ++ profileName ++ "\" storage_provider options")
          | .bad =>
            .failed ("bad profile \"" ++ profileName ++ "\" storage_provider options")
          | .val opts =>
            match opts.basePath with
            | none =>
              .failed ("missing or bad profile \"" ++ profileName ++
                "\" storage_provider options base_path")
            | some basePath =>
              match opts.endpointURL with
              | none =>
                .failed ("missing or bad profile \"" ++ profileName ++
                  "\" storage_provider options endpoint_url")
              | some endpointURL =>
                match opts.regionName with
                | none =>
                  .failed ("missing or bad profile \"" ++ profileName ++
                    "\" storage_provider options region_name")
                | some regionName =>
                  match prof.credentialsProvider with
                  | .absent =>
                    .failed ("missing profile \"" ++ profileName ++ "\" credentials_provider")
                  | .bad =>
                    .failed ("bad profile \"" ++ profileName ++ "\" credentials_provider")
                  | .val cp =>
                    match cp.typeName with
                    | none =>
                      .failed ("missing or bad profile \"" ++ profileName ++
                        "\" credentials_provider type")
                    | some credentialsProviderType =>
                      if credentialsProviderType ≠ "S3Credentials" then
                        .failed ("bad profile \"" ++ profileName ++
                          "\" storage_provider type (\"" ++ credentialsProviderType ++
                          "\") - must be \"S3Credentials\"")
                      else
                        match cp.options with
                        | .absent =>
                          .failed ("missing profile \"" ++ profileName ++
                            "\" credentials_provider options")
                        | .bad =>
                          .failed ("bad profile \"" ++ profileName ++
                            "\" credentials_provider options")
                        | .val cpo =>
                          match cpo.accessKey with
                          | none =>
                            .failed ("missing or bad profile \"" ++ profileName ++
                              "\" credentials_provider options region_name")
                          | some accessKey =>
                            match cpo.secretKey with
                            | none =>
                              .failed ("missing or bad profile \"" ++ profileName ++
                                "\" credentials_provider options region_name")
                            | some secretKey =>
                              if endpointURL.scheme ≠ "http" ∧ endpointURL.scheme ≠ "https" then
                                .failed ("bad profile \"" ++ profileName ++
                                  "\" storage_provider options endpoint [Scheme]")
                              else
                                .backend
                                  { dirName := profileName
                                    bucketContainerName := basePathBucketContainerName basePath
                                    prefixStr := basePathPrefix basePath
                                    backendTypeName := "S3"
                                    s3 :=
                                      { accessKeyID := accessKey
                                        secretAccessKey := secretKey
                                        region := regionName
                                        endpoint := endpointURL.host ++ endpointURL.path
                                        allowHTTP := endpointURL.scheme == "http" } }
        else
          .skipped

/-- The state threaded through the dialect-0 loop: synthesized backends in
order, the cross-reparse `globals.backendsSkipped` set, and the profile names
for which an informational skip log was emitted during this parse. -/
structure TranslateState where
  backends : List CompatBackend
  skippedSet : List String
  logged : List String
deriving DecidableEq

/-- The dialect-0 loop over the `profiles` section (config.go lines 289-445):
a failed profile aborts the parse with its error; a skipped profile is logged
and added to the skipped set only if not already there; an accepted profile
appends one backend. -/
def translateProfilesAux (st : TranslateState) :
    List (String × Option Profile) → Except String TranslateState
  | [] => .ok st
  | (profileName, p) :: rest =>
    match translateProfile profileName p with
    | .failed e => .error e
    | .skipped =>
      if profileName ∈ st.skippedSet then
        translateProfilesAux st rest
      else
        translateProfilesAux
          { st with
              skippedSet := st.skippedSet ++ [profileName]
              logged := st.logged ++ [profileName] } rest
    | .backend b =>
      translateProfilesAux { st with backends := st.backends ++ [b] } rest

def translateProfiles (skippedSet : List String)
    (profiles : List (String × Option Profile)) : Except String TranslateState :=
  translateProfilesAux { backends := [], skippedSet := skippedSet, logged := [] } profiles

/-- A fully specified s3-type, S3Credentials-type profile with the given
`base_path`, used as the common concrete instance in the theorems below. -/
def compatS3Profile (basePath : String) : Profile :=
  { storageProvider := .val
      { typeName := some "s3"
        options := .val
          { basePath := some basePath
            endpointURL := some { scheme := "https", host := "endpoint.example", path := "" }
            regionName := some "region1" } }
    credentialsProvider := .val
      { typeName := some "S3Credentials"
        options := .val { accessKey := some "AK", secretKey := some "SK" } } }

/-! ## Configuration reload validation (config.go lines 866-1119, globals.go)

The parsed configuration after all defaults are applied: the fifteen global
settings of `configStruct` and the per-backend settings of `backendStruct`
with their `backendConfigS3Struct` specifics.  Durations are nanoseconds,
permission bits the parsed octal value, the retry multiplier a rational (the
code compares the `float64` for exact equality).  The derived `retryDelay`
slice is runtime state, not compared on reload, and is omitted here. -/

@[ext]
structure BackendConfigS3 where
  accessKeyID : String
  secretAccessKey : String
  region : String
  endpoint : String
  allowHTTP : Bool
  skipTLSCertificateVerify : Bool
  virtualHostedStyleRequest : Bool
  unsignedPayload : Bool
  retryBaseDelay : Nat
  retryNextDelayMultiplier : ℚ
  retryMaxDelay : Nat
deriving DecidableEq

structure Backend where
  dirName : String
  readOnly : Bool
  flushOnClose : Bool
  uid : Nat
  gid : Nat
  dirPerm : Nat
  filePerm : Nat
  directoryPageSize : Nat
  multiPartCacheLineThreshold : Nat
  uploadPartCacheLines : Nat
  uploadPartConcurrency : Nat
  bucketContainerName : String
  prefixStr : String
  traceLevel : Nat
  backendTypeName : String
  s3 : BackendConfigS3
deriving DecidableEq

structure Config where
  mscpVersion : Nat
  mountName : String
  mountPoint : String
  uid : Nat
  gid : Nat
  dirPerm : Nat
  allowOther : Bool
  maxWrite : Nat
  entryAttrTTL : Nat
  evictableInodeTTL : Nat
  cacheLineSize : Nat
  cacheLines : Nat
  dirtyCacheLinesFlushTrigger : Nat
  dirtyCacheLinesMax : Nat
  autoSIGHUPInterval : Nat
  backends : List Backend
deriving DecidableEq

/-- `config.backends[dirName]` lookup on the backend list. -/
def findBackend (c : Config) (dirName : String) : Option Backend :=
  c.backends.find? (fun b => b.dirName == dirName)

/-- The fifteen global-setting comparisons of config.go lines 880-953, in
source order, each with its error. -/
def checkGlobalsUnchanged (old new : Config) : Except String Unit :=
  if old.mscpVersion ≠ new.mscpVersion then .error "cannot change mscp_version via SIGHUP"
  else if old.mountName ≠ new.mountName then .error "cannot change mountname via SIGHUP"
  else if old.mountPoint ≠ new.mountPoint then .error "cannot change mountpoint via SIGHUP"
  else if old.uid ≠ new.uid then .error "cannot change uid via SIGHUP"
  else if old.gid ≠ new.gid then .error "cannot change gid via SIGHUP"
  else if old.dirPerm ≠ new.dirPerm then .error "cannot change dir_perm via SIGHUP"
  else if old.allowOther ≠ new.allowOther then .error "cannot change allow_other via SIGHUP"
  else if old.maxWrite ≠ new.maxWrite then .error "cannot change max_write via SIGHUP"
  else if old.entryAttrTTL ≠ new.entryAttrTTL then
    .error "cannot change entry_attr_ttl via SIGHUP"
  else if old.evictableInodeTTL ≠ new.evictableInodeTTL then
    .error "cannot change evictable_inode_ttl via SIGHUP"
  else if old.cacheLineSize ≠ new.cacheLineSize then
    .error "cannot change cache_line_size via SIGHUP"
  else if old.cacheLines ≠ new.cacheLines then .error "cannot change cache_lines via SIGHUP"
  else if old.dirtyCacheLinesFlushTrigger ≠ new.dirtyCacheLinesFlushTrigger then
    .error "cannot change dirty_cache_lines_flush_trigger via SIGHUP"
  else if old.dirtyCacheLinesMax ≠ new.dirtyCacheLinesMax then
    .error "cannot change dirty_cache_lines_max via SIGHUP"
  else if old.autoSIGHUPInterval ≠ new.autoSIGHUPInterval then
    .error "cannot change auto_sighup_interval via SIGHUP"
  else .ok ()

/-- The per-backend comparisons of config.go lines 960-1098 for one dir_name
present in both configurations: the fourteen generic fields in source order,
then the backend_type switch with its S3-specific comparisons. -/
def checkBackendUnchanged (dirName : String) (ob nb : Backend) : Except String Unit :=
  if ob.readOnly ≠ nb.readOnly then
    .error ("cannot change readonly in backends[\"" ++ dirName ++ "\"]")
  else if ob.flushOnClose ≠ nb.flushOnClose then
    .error ("cannot change flush_on_close in backends[\"" ++ dirName ++ "\"]")
  else if ob.uid ≠ nb.uid then
    .error ("cannot change uid in backends[\"" ++ dirName ++ "\"]")
  else if ob.gid ≠ nb.gid then
    .error ("cannot change gid in backends[\"" ++ dirName ++ "\"]")
  else if ob.dirPerm ≠ nb.dirPerm then
    .error ("cannot change dir_perm in backends[\"" ++ dirName ++ "\"]")
  else if ob.filePerm ≠ nb.filePerm then
    .error ("cannot change file_perm in backends[\"" ++ dirName ++ "\"]")
  else if ob.directoryPageSize ≠ nb.directoryPageSize then
    .error ("cannot change directory_page_size in backends[\"" ++ dirName ++ "\"]")
  else if ob.multiPartCacheLineThreshold ≠ nb.multiPartCacheLineThreshold then
    .error ("cannot change multipart_cache_line_threshold in backends[\"" ++ dirName ++ "\"]")
  else if ob.uploadPartCacheLines ≠ nb.uploadPartCacheLines then
    .error ("cannot change upload_part_cache_lines in backends[\"" ++ dirName ++ "\"]")
  else if ob.uploadPartConcurrency ≠ nb.uploadPartConcurrency then
    .error ("cannot change upload_part_concurrency in backends[\"" ++ dirName ++ "\"]")
  else if ob.bucketContainerName ≠ nb.bucketContainerName then
    .error ("cannot change bucket_container_name in backends[\"" ++ dirName ++ "\"]")
  else if ob.prefixStr ≠ nb.prefixStr then
    .error ("cannot change prefix in backends[\"" ++ dirName ++ "\"]")
  else if ob.traceLevel ≠ nb.traceLevel then
    .error ("cannot change trace_level in backends[\"" ++ dirName ++ "\"]")
  else if ob.backendTypeName ≠ nb.backendTypeName then
    .error ("cannot change backend_type in backends[\"" ++ dirName ++ "\"]")
  else if ob.backendTypeName = "Azure" ∨ ob.backendTypeName = "GCP"
      ∨ ob.backendTypeName = "OCI" then
    .error ("logic error comparing backend_type specifics in backends[\"" ++ dirName ++ "\"]")
  else if ob.backendTypeName = "S3" then
    if ob.s3.accessKeyID ≠ nb.s3.accessKeyID then
      .error ("cannot change S3.access_key_id in backends[\"" ++ dirName ++ "\"]")
    else if ob.s3.secretAccessKey ≠ nb.s3.secretAccessKey then
      .error ("cannot change S3.secret_access_key in backends[\"" ++ dirName ++ "\"]")
    else if ob.s3.region ≠ nb.s3.region then
      .error ("cannot change S3.region in backends[\"" ++ dirName ++ "\"]")
    else if ob.s3.endpoint ≠ nb.s3.endpoint then
      .error ("cannot change S3.endpoint in backends[\"" ++ dirName ++ "\"]")
    else if ob.s3.allowHTTP ≠ nb.s3.allowHTTP then
      .error ("cannot change S3.allow_http in backends[\"" ++ dirName ++ "\"]")
    else if ob.s3.skipTLSCertificateVerify ≠ nb.s3.skipTLSCertificateVerify then
      .error ("cannot change S3.skip_tls_certificate_verify in backends[\"" ++ dirName ++ "\"]")
    else if ob.s3.virtualHostedStyleRequest ≠ nb.s3.virtualHostedStyleRequest then
      .error ("cannot change S3.virtual_hosted_style_request in backends[\"" ++ dirName ++ "\"]")
    else if ob.s3.unsignedPayload ≠ nb.s3.unsignedPayload then
      .error ("cannot change S3.unsigned_payload in backends[\"" ++ dirName ++ "\"]")
    else if ob.s3.retryBaseDelay ≠ nb.s3.retryBaseDelay then
      .error ("cannot change S3.retry_base_delay in backends[\"" ++ dirName ++ "\"]")
    else if ob.s3.retryNextDelayMultiplier ≠ nb.s3.retryNextDelayMultiplier then
      .error ("cannot change S3.retry_next_delay_multiplier in backends[\"" ++ dirName ++ "\"]")
    else if ob.s3.retryMaxDelay ≠ nb.s3.retryMaxDelay then
      .error ("cannot change S3.retry_max_delay in backends[\"" ++ dirName ++ "\"]")
    else .ok ()
  else
    .error ("logic error comparing backend_type specifics in backends[\"" ++ dirName ++
      "\"] - backend_type unrecognized")

/-- The loop of config.go lines 957-1100: every old backend whose dir_name is
also present in the new configuration must compare unchanged. -/
def checkCommonBackendsUnchanged (newCfg : Config) : List Backend → Except String Unit
  | [] => .ok ()
  | ob :: rest =>
    match findBackend newCfg ob.dirName with
    | none => checkCommonBackendsUnchanged newCfg rest
    | some nb =>
      match checkBackendUnchanged ob.dirName ob nb with
      | .error e => .error e
      | .ok () => checkCommonBackendsUnchanged newCfg rest

/-- The reload-relevant slice of `globalsStruct`: the applied configuration,
the dir_names of currently mounted backends (never touched by
`checkConfigFile`), and the two pending queues. -/
structure ReloadState where
  applied : Option Config
  mountedBackends : List String
  backendsToMount : List Backend
  backendsToUnmount : List Backend
deriving DecidableEq

/-- The tail of `checkConfigFile` (config.go lines 866-1124) after a candidate
configuration has been parsed: on first application all backends are queued
to mount and the configuration recorded (the Go code moves them out of the
recorded config's map and `processToMountList` re-registers each as it is
mounted; the applied configuration is modelled with its backends kept, the
state after the queue has been processed); on reload every global setting and
every backend common to both configurations must compare identically, else
the state is left untouched and the error returned; on success backends
missing from the new document are queued to unmount and new ones to mount. -/
def checkConfigReload (st : ReloadState) (newCfg : Config) :
    ReloadState × Option String :=
  match st.applied with
  | none =>
    ({ st with
        applied := some newCfg
        backendsToMount := st.backendsToMount ++ newCfg.backends }, none)
  | some oldCfg =>
    match checkGlobalsUnchanged oldCfg newCfg with
    | .error e => (st, some e)
    | .ok () =>
      match checkCommonBackendsUnchanged newCfg oldCfg.backends with
      | .error e => (st, some e)
      | .ok () =>
        ({ st with
            backendsToUnmount := st.backendsToUnmount ++
              oldCfg.backends.filter (fun ob => (findBackend newCfg ob.dirName).isNone)
            backendsToMount := st.backendsToMount ++
              newCfg.backends.filter (fun nb => (findBackend oldCfg nb.dirName).isNone) },
          none)

/-- "All fifteen global settings agree", as a proposition. -/
def GlobalsAgree (old new : Config) : Prop :=
  old.mscpVersion = new.mscpVersion ∧ old.mountName = new.mountName
    ∧ old.mountPoint = new.mountPoint ∧ old.uid = new.uid ∧ old.gid = new.gid
    ∧ old.dirPerm = new.dirPerm ∧ old.allowOther = new.allowOther
    ∧ old.maxWrite = new.maxWrite ∧ old.entryAttrTTL = new.entryAttrTTL
    ∧ old.evictableInodeTTL = new.evictableInodeTTL
    ∧ old.cacheLineSize = new.cacheLineSize ∧ old.cacheLines = new.cacheLines
    ∧ old.dirtyCacheLinesFlushTrigger = new.dirtyCacheLinesFlushTrigger
    ∧ old.dirtyCacheLinesMax = new.dirtyCacheLinesMax
    ∧ old.autoSIGHUPInterval = new.autoSIGHUPInterval

/-- A small concrete applied configuration for the reload-gate witness. -/
def witnessConfigA : Config :=
  { mscpVersion := 1, mountName := "mount1", mountPoint := "/mnt", uid := 0, gid := 0
    dirPerm := 365, allowOther := true, maxWrite := 131072
    entryAttrTTL := 10000000000, evictableInodeTTL := 1000000000000
    cacheLineSize := 1048576, cacheLines := 4096
    dirtyCacheLinesFlushTrigger := 3276, dirtyCacheLinesMax := 3686
    autoSIGHUPInterval := 0, backends := [] }

/-- The same configuration with a changed `mountname`, a rejected reload
candidate. -/
def witnessConfigB : Config :=
  { witnessConfigA with mountName := "mount2" }

/-- "Every compared field of the two backends agrees", as a proposition. -/
def BackendAgrees (ob nb : Backend) : Prop :=
  ob.readOnly = nb.readOnly ∧ ob.flushOnClose = nb.flushOnClose ∧ ob.uid = nb.uid
    ∧ ob.gid = nb.gid ∧ ob.dirPerm = nb.dirPerm ∧ ob.filePerm = nb.filePerm
    ∧ ob.directoryPageSize = nb.directoryPageSize
    ∧ ob.multiPartCacheLineThreshold = nb.multiPartCacheLineThreshold
    ∧ ob.uploadPartCacheLines = nb.uploadPartCacheLines
    ∧ ob.uploadPartConcurrency = nb.uploadPartConcurrency
    ∧ ob.bucketContainerName = nb.bucketContainerName ∧ ob.prefixStr = nb.prefixStr
    ∧ ob.traceLevel = nb.traceLevel ∧ ob.backendTypeName = nb.backendTypeName
    ∧ ob.s3 = nb.s3

/-! ## FUSE daemon filesystem state (globals.go, fs.go, fission.go, and the
cache-line fetch)

The lock-protected `globalsStruct` becomes an explicit state record; every
handler takes and returns it.  Time is a `Nat` (nanoseconds).  Go maps become
association lists (`List (key × value)`); inode nonces are never reused
(`fetchNonce`), so the per-inode `cache` maps are flattened into one table
keyed by `(inodeNumber, lineNumber)`, and the two cache-line LRUs hold those
keys in order, oldest first.  Inode fields not consulted by any embedded
operation (`mTime`, `sizeInBackend`, `sizeInMemory`, `mode`) are omitted; the
immutable `inode.backend.readOnly` dereference is carried as a snapshot field.
A background cache-line fetch runs to completion before the reader resumes
(`cacheLine.Wait`), so it is embedded as a synchronous state transition. -/

inductive InodeType
  | fileObject
  | fuseRootDir
  | backendRootDir
  | pseudoDir
deriving DecidableEq

structure FileHandle where
  nonce : Nat
  isExclusive : Bool
  allowReads : Bool
  allowWrites : Bool
  appendWrites : Bool
deriving DecidableEq

inductive CacheLineState
  | inbound
  | clean
  | outbound
  | dirty
deriving DecidableEq

structure CacheLine where
  lineState : CacheLineState
  inodeNumber : Nat
  lineNumber : Nat
  eTag : String
  content : List Nat
deriving DecidableEq

structure Inode where
  inodeNumber : Nat
  inodeType : InodeType
  backendDirName : String
  backendReadOnly : Bool
  parentInodeNumber : Nat
  isVirt : Bool
  objectPath : String
  basename : String
  eTag : String
  lTime : Nat
  onLRU : Bool
  fhMap : List FileHandle
  virtChildDirMap : List (String × Nat)
  virtChildFileMap : List (String × Nat)
deriving DecidableEq

/-- The runtime slice of `backendStruct`: its per-object-path inode map. -/
structure BackendRT where
  dirName : String
  inodeMap : List (String × Nat)
deriving DecidableEq

structure FSState where
  cacheLineSize : Nat
  evictableInodeTTL : Nat
  lastNonce : Nat
  inodeMap : List (Nat × Inode)
  inodeLRU : List Nat
  backends : List BackendRT
  cacheLines : List ((Nat × Nat) × CacheLine)
  inboundCacheLineCount : Nat
  cleanCacheLineLRU : List (Nat × Nat)
  dirtyCacheLineLRU : List (Nat × Nat)
deriving DecidableEq

/-- Replace the inode numbered `n` by `f` applied to it. -/
def updateInode (st : FSState) (n : Nat) (f : Inode → Inode) : FSState :=
  { st with inodeMap := st.inodeMap.map (fun p => if p.1 = n then (p.1, f p.2) else p) }

/-- `(inode *inodeStruct) isEvictable()` (fs.go lines 299-315). -/
def isEvictable (i : Inode) : Bool :=
  match i.inodeType with
  | .fileObject => !i.isVirt && i.fhMap.length == 0
  | .fuseRootDir => false
  | .backendRootDir => false
  | .pseudoDir =>
    !i.isVirt && i.fhMap.length == 0 && i.virtChildDirMap.length == 2
      && i.virtChildFileMap.length == 0

/-- `(parentInode *inodeStruct) createFileObjectInode` (fs.go lines 248-297)
restricted to the fields carried here: allocate a nonce, build the inode
(`lTime := timeNow`), link it — a virtual inode into the parent's virtual
child-file map with no LRU element, a non-virtual one onto the tail of the
inode LRU — and register it in the global and backend inode maps.  Returns the
new inode number. -/
def createFileObjectInode (st : FSState) (parentInodeNumber : Nat) (isVirt : Bool)
    (basename eTag : String) (timeNow : Nat) : FSState × Nat :=
  match st.inodeMap.lookup parentInodeNumber with
  | none => (st, 0)
  | some parentInode =>
    let nonce := st.lastNonce + 1
    let objectPath :=
      if parentInode.objectPath = "" then basename
      else parentInode.objectPath ++ basename
    let inode : Inode :=
      { inodeNumber := nonce, inodeType := .fileObject
        backendDirName := parentInode.backendDirName
        backendReadOnly := parentInode.backendReadOnly
        parentInodeNumber := parentInodeNumber, isVirt := isVirt
        objectPath := objectPath, basename := basename, eTag := eTag
        lTime := timeNow, onLRU := !isVirt, fhMap := []
        virtChildDirMap := [], virtChildFileMap := [] }
    let st1 := { st with lastNonce := nonce, inodeMap := st.inodeMap ++ [(nonce, inode)] }
    let st2 :=
      if isVirt then
        updateInode st1 parentInodeNumber (fun p =>
          { p with virtChildFileMap := p.virtChildFileMap ++ [(basename, nonce)] })
      else
        { st1 with inodeLRU := st1.inodeLRU ++ [nonce] }
    let st3 := { st2 with
      backends := st2.backends.map (fun b =>
        if b.dirName = parentInode.backendDirName then
          { b with inodeMap := b.inodeMap ++ [(objectPath, nonce)] }
        else b) }
    (st3, nonce)

/-- The access mode decoded from `openIn.Flags` (fission.go lines 332-335):
`allowReads` unless write-only, `allowWrites` unless read-only.  The bit-level
decoding against the vendored fission library's constants is taken as given. -/
inductive AccessMode
  | rdonly
  | wronly
  | rdwr
deriving DecidableEq

/-- `DoOpen` (fission.go lines 295-364).  Returns the state, the errno, and
the handle nonce on success.  Note: the new handle is added to the inode's
`fhMap` with no call to `touch`, so the inode's position on (or absence from)
the eviction LRU is left as it was. -/
def doOpen (st : FSState) (nodeID : Nat) (isExclusiveReq : Bool)
    (accessMode : AccessMode) (appendReq : Bool) : FSState × Nat × Option Nat :=
  match st.inodeMap.lookup nodeID with
  | none => (st, ENOENT, none)
  | some inode =>
    if inode.inodeType != .fileObject then (st, EISDIR, none)
    else
      let exclusiveConflict :=
        match inode.fhMap with
        | [fh] => fh.isExclusive
        | _ => false
      if exclusiveConflict then (st, EACCES, none)
      else
        let allowReads := accessMode != AccessMode.wronly
        let allowWrites := accessMode != AccessMode.rdonly
        let appendWrites := allowWrites && appendReq
        if allowWrites && inode.backendReadOnly then (st, EACCES, none)
        else
          let nonce := st.lastNonce + 1
          let fh : FileHandle :=
            { nonce := nonce, isExclusive := isExclusiveReq
              allowReads := allowReads, allowWrites := allowWrites
              appendWrites := appendWrites }
          let st1 := updateInode { st with lastNonce := nonce } nodeID
            (fun i => { i with fhMap := i.fhMap ++ [fh] })
          (st1, 0, some nonce)

/-- `DoRelease` (fission.go lines 501-535). -/
def doRelease (st : FSState) (nodeID fhNonce : Nat) : FSState × Nat :=
  match st.inodeMap.lookup nodeID with
  | none => (st, ENOENT)
  | some inode =>
    if inode.inodeType != .fileObject then (st, EBADF)
    else if (inode.fhMap.find? (fun fh => fh.nonce == fhNonce)).isNone then (st, EBADF)
    else
      (updateInode st nodeID (fun i =>
        { i with fhMap := i.fhMap.filter (fun fh => fh.nonce != fhNonce) }), 0)

/-- One eviction (fs.go lines 380-395): remove the inode from the global
inode map and the LRU, remove its object path from its backend's inode map,
and, when the parent is still present, remove its basename from the parent's
virtual child map of the matching type.  Any other inode type at this point
is a `Fatalf` in the source (the daemon dies); roots never reach here because
they are never on the LRU. -/
def evictInode (st : FSState) (oldInode : Inode) (rest : List Nat) : FSState :=
  let st1 := { st with
    inodeMap := st.inodeMap.filter (fun p => p.1 != oldInode.inodeNumber)
    inodeLRU := rest
    backends := st.backends.map (fun (b : BackendRT) =>
      if b.dirName = oldInode.backendDirName then
        { b with inodeMap := b.inodeMap.filter (fun p => p.1 != oldInode.objectPath) }
      else b) }
  match st1.inodeMap.lookup oldInode.parentInodeNumber with
  | none => st1
  | some _ =>
    match oldInode.inodeType with
    | .fileObject =>
      updateInode st1 oldInode.parentInodeNumber (fun p =>
        { p with virtChildFileMap :=
            p.virtChildFileMap.filter (fun q => q.1 != oldInode.basename) })
    | .pseudoDir =>
      updateInode st1 oldInode.parentInodeNumber (fun p =>
        { p with virtChildDirMap :=
            p.virtChildDirMap.filter (fun q => q.1 != oldInode.basename) })
    | _ => st1

/-- The per-tick loop of `inodeEvictor` (fs.go lines 360-396): pop the LRU
front while its last-lookup time is at least `evictable_inode_ttl` in the
past (`lTime.Add(TTL).After(now)` is the stop condition).  Only membership of
the LRU and `lTime` age are consulted — `isEvictable` is not re-checked.  The
fuel is the LRU length, enough for every run since each step shortens it. -/
def inodeEvictorLoop : Nat → FSState → Nat → FSState
  | 0, st, _ => st
  | fuel + 1, st, timeNow =>
    match st.inodeLRU with
    | [] => st
    | n :: rest =>
      match st.inodeMap.lookup n with
      | none => st
      | some oldInode =>
        if timeNow < oldInode.lTime + st.evictableInodeTTL then st
        else inodeEvictorLoop fuel (evictInode st oldInode rest) timeNow

def inodeEvictor (st : FSState) (timeNow : Nat) : FSState :=
  inodeEvictorLoop st.inodeLRU.length st timeNow

/-- `DoRename`'s request (the kernel header's NodeID is the source directory,
`fission.RenameIn` carries the target directory and both names). -/
structure RenameIn where
  oldParentNodeID : Nat
  newParentNodeID : Nat
  oldName : String
  newName : String
deriving DecidableEq

/-- `DoRename2`'s request (`fission.Rename2In` adds the flags word). -/
structure Rename2In where
  oldParentNodeID : Nat
  newParentNodeID : Nat
  flags : Nat
  oldName : String
  newName : String
deriving DecidableEq

/-- `DoRename` (fission.go lines 285-288): unconditionally EXDEV; the handler
body never takes the global lock nor reads or writes any state. -/
def doRename (st : FSState) (_ : RenameIn) : FSState × Nat := (st, EXDEV)

/-- `DoRename2` (fission.go lines 1321-1324): identical. -/
def doRename2 (st : FSState) (_ : Rename2In) : FSState × Nat := (st, EXDEV)

/-- The oracle for `backend.context.readFile` as a cache-line fetch issues it:
object path and cache-line number in, observed ETag and fetched bytes out, or
the error. -/
def FetchOracle : Type := String → Nat → Except String (String × List Nat)

/-- Store a cache line under its key (the key is already present: `DoRead`
installed the Inbound line before the fetch was dispatched). -/
def setCacheLine (st : FSState) (key : Nat × Nat) (cl : CacheLine) : FSState :=
  { st with cacheLines := st.cacheLines.map (fun p => if p.1 = key then (key, cl) else p) }

/-- The common tail of every `(*cacheLineStruct) fetch()` path: record the
line's new Clean state, decrement the in-flight counter, and append the line
to the clean LRU. -/
def cacheLineFetchFinish (st : FSState) (inodeNumber lineNumber : Nat)
    (eTag : String) (content : List Nat) : FSState :=
  let st1 := setCacheLine st (inodeNumber, lineNumber)
    { lineState := .clean, inodeNumber := inodeNumber, lineNumber := lineNumber
      eTag := eTag, content := content }
  { st1 with
      inboundCacheLineCount := st1.inboundCacheLineCount - 1
      cleanCacheLineLRU := st1.cleanCacheLineLRU ++ [(inodeNumber, lineNumber)] }

/-- `(*cacheLineStruct) fetch()` (the cache-line fetch goroutine) run to
completion: a missing owning inode or a failed `readFile` leaves the line
Clean with an empty ETag and no content; success records the fetched ETag and
bytes.  All three paths append the line to the clean LRU. -/
def cacheLineFetch (oracle : FetchOracle) (st : FSState)
    (inodeNumber lineNumber : Nat) : FSState :=
  match st.inodeMap.lookup inodeNumber with
  | none => cacheLineFetchFinish st inodeNumber lineNumber "" []
  | some inode =>
    match oracle inode.objectPath lineNumber with
    | .error _ => cacheLineFetchFinish st inodeNumber lineNumber "" []
    | .ok (eTag, buf) => cacheLineFetchFinish st inodeNumber lineNumber eTag buf

/-- `(*cacheLineStruct) touch()` (cache-line LRU placement): a Clean line
moves to the clean LRU's tail, a Dirty one to the dirty LRU's tail, the
in-flight states are left alone. -/
def cacheLineTouch (st : FSState) (key : Nat × Nat) (cl : CacheLine) : FSState :=
  match cl.lineState with
  | .clean =>
    { st with cleanCacheLineLRU :=
        (st.cleanCacheLineLRU.filter (fun k => k != key)) ++ [key] }
  | .dirty =>
    { st with dirtyCacheLineLRU :=
        (st.dirtyCacheLineLRU.filter (fun k => k != key)) ++ [key] }
  | _ => st

inductive ReadResult
  | success (data : List Nat)
  | failure (errno : Nat)
  | crash
deriving DecidableEq

/-- The loop of `DoRead` (fission.go lines 366-469).  Per iteration: while the
accumulated data is shorter than `readIn.Size`, re-validate inode, handle and
read permission, locate the cache line under the running offset; a miss
installs an Inbound line, counts it in-flight and runs the fetch (the Go code
waits on the fetch's completion before re-entering the loop, so a whole
iteration elapses); a Clean line is touched, then the slice bounds are
computed by the three clippings of lines 443-451; an empty remainder is the
EOF break (success with the data so far); `content[start:limit]` with
`limit < start` is a Go slice-bounds panic, the crash outcome.  A pre-existing
Inbound line makes the reader wait for a completion this sequential embedding
cannot deliver; fuel exhaustion (the crash at fuel 0) models that unbounded
wait.  The fuel `2 * readIn.Size + 2` covers every other run: each iteration
either finishes, resolves a miss, or appends at least one byte. -/
def doReadLoop (oracle : FetchOracle) (nodeID fhNonce readInSize : Nat) :
    Nat → FSState → Nat → List Nat → FSState × ReadResult
  | 0, st, _, _ => (st, .crash)
  | fuel + 1, st, curOffset, data =>
    if data.length < readInSize then
      match st.inodeMap.lookup nodeID with
      | none => (st, .failure ENOENT)
      | some inode =>
        if inode.inodeType != .fileObject then (st, .failure EBADF)
        else
          match inode.fhMap.find? (fun fh => fh.nonce == fhNonce) with
          | none => (st, .failure EBADF)
          | some fh =>
            if !fh.allowReads then (st, .failure EBADF)
            else
              let cacheLineNumber := curOffset / st.cacheLineSize
              match st.cacheLines.lookup (nodeID, cacheLineNumber) with
              | none =>
                let st1 := { st with
                  cacheLines := st.cacheLines ++ [((nodeID, cacheLineNumber),
                    { lineState := .inbound, inodeNumber := nodeID
                      lineNumber := cacheLineNumber, eTag := "", content := [] })]
                  inboundCacheLineCount := st.inboundCacheLineCount + 1 }
                doReadLoop oracle nodeID fhNonce readInSize fuel
                  (cacheLineFetch oracle st1 nodeID cacheLineNumber) curOffset data
              | some cacheLine =>
                if cacheLine.lineState == .inbound then
                  doReadLoop oracle nodeID fhNonce readInSize fuel st curOffset data
                else
                  let st2 := cacheLineTouch st (nodeID, cacheLineNumber) cacheLine
                  let cacheLineOffsetStart :=
                    curOffset - cacheLineNumber * st.cacheLineSize
                  let lim0 := cacheLineOffsetStart + (readInSize - data.length)
                  let lim1 := min lim0 st.cacheLineSize
                  let lim := min lim1 cacheLine.content.length
                  if lim = cacheLineOffsetStart then (st2, .success data)
                  else if lim < cacheLineOffsetStart then (st2, .crash)
                  else
                    doReadLoop oracle nodeID fhNonce readInSize fuel st2
                      (curOffset + (lim - cacheLineOffsetStart))
                      (data ++ (cacheLine.content.take lim).drop cacheLineOffsetStart)
    else (st, .success data)

/-- `DoRead` (fission.go lines 366-469). -/
def doRead (oracle : FetchOracle) (st : FSState)
    (nodeID fhNonce offset readInSize : Nat) : FSState × ReadResult :=
  doReadLoop oracle nodeID fhNonce readInSize (2 * readInSize + 2) st offset []

/-- The state after `initFS` and mounting one backend "b" (fs.go lines 10-60
and 82-143): the permanent FUSE root (inode 1) and the backend root
(inode 2), neither on the eviction LRU. -/
def fsBaseState (cacheLineSize evictableInodeTTL : Nat) : FSState :=
  { cacheLineSize := cacheLineSize, evictableInodeTTL := evictableInodeTTL
    lastNonce := 2
    inodeMap :=
      [(1, { inodeNumber := 1, inodeType := .fuseRootDir, backendDirName := ""
             backendReadOnly := true, parentInodeNumber := 1, isVirt := false
             objectPath := "", basename := "", eTag := "", lTime := 0
             onLRU := false, fhMap := []
             virtChildDirMap := [(".", 1), ("..", 1), ("b", 2)]
             virtChildFileMap := [] }),
       (2, { inodeNumber := 2, inodeType := .backendRootDir, backendDirName := "b"
             backendReadOnly := true, parentInodeNumber := 1, isVirt := false
             objectPath := "", basename := "b", eTag := "", lTime := 0
             onLRU := false, fhMap := []
             virtChildDirMap := [(".", 2), ("..", 1)]
             virtChildFileMap := [] })]
    inodeLRU := [], backends := [{ dirName := "b", inodeMap := [] }]
    cacheLines := [], inboundCacheLineCount := 0
    cleanCacheLineLRU := [], dirtyCacheLineLRU := [] }

/-- The scenario shared by the eviction and read theorems: from the mounted
base state (cache_line_size 4, evictable_inode_ttl 10), a lookup at time 0
created the non-virtual FileObject inode 3 ("f", placed on the eviction LRU),
and `DoOpen` then attached the read-only file handle with nonce 4. -/
def openedFileState : FSState :=
  (doOpen (createFileObjectInode (fsBaseState 4 10) 2 false "f" "etag0" 0).1
    3 false .rdonly false).1

end Mscp

namespace Mscp

/-! # Theorems -/

/-- `nextRetryDelayStep` computes the floor of the exact product, the
idealisation of Go's `time.Duration(float64(d) * m)` truncation. -/
theorem nextRetryDelayStep_eq_floor (mult : ℚ) (hm : 0 ≤ mult) (next : Nat) :
    nextRetryDelayStep mult next = (⌊(next : ℚ) * mult⌋).toNat := by
  have hden : ((mult.den : ℚ)) ≠ 0 := by
    exact_mod_cast mult.den_nz
  have hmul : (next : ℚ) * mult = ((next * mult.num : ℤ) : ℚ) / ((mult.den : ℕ) : ℚ) := by
    conv_lhs => rw [← Rat.num_div_den mult]
    push_cast
    ring
  rw [hmul, Rat.floor_intCast_div_natCast]
  have hnum : (0 : ℤ) ≤ mult.num := Rat.num_nonneg.mpr hm
  obtain ⟨n, hn⟩ : ∃ n : ℕ, mult.num = (n : ℤ) := ⟨mult.num.toNat, (Int.toNat_of_nonneg hnum).symm⟩
  rw [nextRetryDelayStep, hn]
  rw [Int.toNat_natCast, ← Int.natCast_mul, ← Int.natCast_div, Int.toNat_natCast]

/-- Every element produced by the generation loop was admitted by the loop
guard, so it is at most `retry_max_delay`. -/
theorem retryDelayLoop_mem_le (mult : ℚ) (maxD : Nat) :
    ∀ (fuel next d : Nat), d ∈ retryDelayLoop mult maxD fuel next → d ≤ maxD
  | 0, _, _, h => by simp [retryDelayLoop] at h
  | fuel + 1, next, d, h => by
    unfold retryDelayLoop at h
    split at h
    · rcases List.mem_cons.mp h with h | h
      · subst h
        assumption
      · exact retryDelayLoop_mem_le mult maxD fuel _ d h
    · simp at h

/-- The generation loop either returns the empty schedule or starts with the
value it was entered with. -/
theorem retryDelayLoop_head (mult : ℚ) (maxD fuel m b : Nat)
    (hb : b ∈ (retryDelayLoop mult maxD fuel m).head?) : b = m := by
  cases fuel with
  | zero => simp [retryDelayLoop] at hb
  | succ fuel =>
    unfold retryDelayLoop at hb
    split at hb
    · have h' : m = b := by simpa using hb
      exact h'.symm
    · simp at hb

/-- Consecutive elements of the generated schedule are related by one
multiplier step. -/
theorem retryDelayLoop_chain (mult : ℚ) (maxD : Nat) :
    ∀ (fuel next : Nat),
      List.Chain' (fun a b => b = nextRetryDelayStep mult a)
        (retryDelayLoop mult maxD fuel next)
  | 0, _ => by simp [retryDelayLoop]
  | fuel + 1, next => by
    unfold retryDelayLoop
    split
    · exact List.Chain'.cons' (retryDelayLoop_chain mult maxD fuel _)
        (fun b hb => retryDelayLoop_head mult maxD fuel _ b hb)
    · simp

/-- C2: with `retry_base_delay = 10ms`, `retry_next_delay_multiplier = 2.0`
and `retry_max_delay = 2000ms` the precomputed schedule is exactly
10, 20, 40, 80, 160, 320, 640, 1280 milliseconds (in nanoseconds here, as
`time.Duration` stores them) and `MaxAttempts()` returns 9; in general, a zero
`retry_base_delay` yields the empty schedule, a non-zero base not exceeding
the cap starts the schedule at the base, each successive delay is the floor of
the previous delay times the multiplier, and every generated delay is at most
`retry_max_delay`. -/
theorem C2_retry_schedule :
    (mscpRetryDelay 10000000 2 2000000000 =
        [10000000, 20000000, 40000000, 80000000, 160000000, 320000000, 640000000, 1280000000]
      ∧ maxAttempts (mscpRetryDelay 10000000 2 2000000000) = 9)
    ∧ (∀ (mult : ℚ) (maxD : Nat), mscpRetryDelay 0 mult maxD = [])
    ∧ (∀ (base : Nat) (mult : ℚ) (maxD : Nat), base ≠ 0 → base ≤ maxD →
        (mscpRetryDelay base mult maxD).head? = some base)
    ∧ (∀ (base : Nat) (mult : ℚ) (maxD : Nat), 0 ≤ mult →
        List.Chain' (fun (a b : Nat) => b = (⌊(a : ℚ) * mult⌋).toNat)
          (mscpRetryDelay base mult maxD))
    ∧ (∀ (base : Nat) (mult : ℚ) (maxD d : Nat),
        d ∈ mscpRetryDelay base mult maxD → d ≤ maxD) := by
  refine ⟨⟨by decide, by decide⟩, ?_, ?_, ?_, ?_⟩
  · intro mult maxD
    simp [mscpRetryDelay]
  · intro base mult maxD hbase hle
    rw [mscpRetryDelay, if_neg hbase]
    have h0 : retryDelayLoop mult maxD (maxD + 1) base =
        base :: retryDelayLoop mult maxD maxD (nextRetryDelayStep mult base) := by
      rw [retryDelayLoop, if_pos hle]
    rw [h0]
    rfl
  · intro base mult maxD hm
    have h := retryDelayLoop_chain mult maxD (maxD + 1) base
    rw [mscpRetryDelay]
    split
    · simp
    · exact h.imp (fun a b hab => hab.trans (nextRetryDelayStep_eq_floor mult hm a))
  · intro base mult maxD d hd
    rw [mscpRetryDelay] at hd
    split at hd
    · simp at hd
    · exact retryDelayLoop_mem_le mult maxD _ _ d hd

/-- Witness for C2: the hypothesis-bearing parts applied at the configured
default S3 retry settings. -/
theorem C2_retry_schedule_witness :
    (mscpRetryDelay 10000000 2 2000000000).head? = some 10000000
      ∧ 1280000000 ≤ 2000000000 := by
  refine ⟨C2_retry_schedule.2.2.1 10000000 2 2000000000 (by decide) (by decide), ?_⟩
  exact C2_retry_schedule.2.2.2.2 10000000 2 2000000000 1280000000 (by decide)

/-- C8: the configuration-file discovery search itself probes ".yml"
candidate paths, yet the extension switch of `checkConfigFile` rejects every
path ending in ".yml" with an unsupported-extension error, while accepting
".yaml" and ".json"; so a well-formed document stored at a discovered ".yml"
path is not parsed and accepted. -/
theorem C8_yml_config_rejected :
    "/home/user/.msc_config.yml" ∈ mscConfigSearchCandidates "" "/home/user" ""
      ∧ filepathExt "/home/user/.msc_config.yml" = ".yml"
      ∧ configFileFormatForExt ".yml" =
          .error ("unsupported extension (\".yml\") in config-file" ++
            " - must be one of \".json\" or \".yaml\"")
      ∧ configFileFormatForExt ".yaml" = .ok .yaml
      ∧ configFileFormatForExt ".json" = .ok .json := by
  exact ⟨by decide, by decide, rfl, rfl, rfl⟩

/-- C7: `IsErrorRetryable` returns true exactly when no structured HTTP
response error can be extracted, or the status code is below 400, equals 429,
or is at least 500; it returns false for a nil error and every other 4xx. -/
theorem C7_is_error_retryable :
    isErrorRetryable .nilError = false
      ∧ isErrorRetryable .noHTTPResponse = true
      ∧ (∀ statusCode : Nat,
          isErrorRetryable (.httpResponse statusCode) = true ↔
            (statusCode < 400 ∨ statusCode = 429 ∨ 500 ≤ statusCode)) := by
  refine ⟨rfl, rfl, fun statusCode => ?_⟩
  by_cases h1 : statusCode < 400 <;> by_cases h2 : statusCode = 429 <;>
    by_cases h3 : 500 ≤ statusCode <;>
      simp [isErrorRetryable, h1, h2, h3]

/-- C3: each of `readFile`, `statFile`, `deleteFile` issues `HeadObject`
first; with a non-empty ifMatch precondition, a successful head reply whose
quote-trimmed ETag differs from the precondition makes the operation return
the hard error "eTag mismatch" after the head request only — the main request
is never issued, and nothing is retried; with an empty ifMatch no comparison
is made and the main request is issued whenever the head succeeds. -/
theorem C3_etag_precondition :
    (∀ (endpoint : S3Endpoint) (i₁ : ReadFileInput) (i₂ : StatFileInput)
        (i₃ : DeleteFileInput),
      (s3ReadFile endpoint i₁).1.head? = some .headObject
        ∧ (s3StatFile endpoint i₂).1.head? = some .headObject
        ∧ (s3DeleteFile endpoint i₃).1.head? = some .headObject)
    ∧ (∀ (endpoint : S3Endpoint) (filePath : String) (offsetCacheLine : Nat)
        (ifMatch : String) (headOut : HeadObjectOutput) (t : String),
      endpoint.headReply = .ok headOut → ifMatch ≠ "" → headOut.eTag = some t →
      ifMatch ≠ trimETagQuotes t →
        s3ReadFile endpoint ⟨filePath, offsetCacheLine, ifMatch⟩ =
            ([.headObject], .err "eTag mismatch")
          ∧ s3StatFile endpoint ⟨filePath, ifMatch⟩ =
              ([.headObject], .err "eTag mismatch")
          ∧ s3DeleteFile endpoint ⟨filePath, ifMatch⟩ =
              ([.headObject], .err "eTag mismatch"))
    ∧ (∀ (endpoint : S3Endpoint) (filePath : String) (offsetCacheLine : Nat)
        (headOut : HeadObjectOutput),
      endpoint.headReply = .ok headOut →
        (s3ReadFile endpoint ⟨filePath, offsetCacheLine, ""⟩).1 =
            [.headObject, .getObject]
          ∧ (s3DeleteFile endpoint ⟨filePath, ""⟩).1 =
              [.headObject, .deleteObject]) := by
  refine ⟨?_, ?_, ?_⟩
  · intro endpoint i₁ i₂ i₃
    refine ⟨?_, ?_, ?_⟩
    · rcases h : endpoint.headReply with e | headOut
      · simp [s3ReadFile, h]
      · simp only [s3ReadFile, h]
        split
        · rfl
        · rcases hg : endpoint.getReply with e | g <;> simp [hg]
    · rcases h : endpoint.headReply with e | headOut
      · simp [s3StatFile, h]
      · simp only [s3StatFile, h]
        split
        · rfl
        · rcases ht : headOut.eTag with _ | t <;> simp [ht]
    · rcases h : endpoint.headReply with e | headOut
      · simp [s3DeleteFile, h]
      · simp only [s3DeleteFile, h]
        split
        · rfl
        · rcases hd : endpoint.deleteReply with e | g <;> simp [hd]
  · intro endpoint filePath offsetCacheLine ifMatch headOut t hhead hne htag hmm
    have hmis : eTagMismatch ifMatch headOut.eTag = true := by
      simp only [eTagMismatch]
      rw [if_neg hne, htag]
      simpa using hmm
    refine ⟨?_, ?_, ?_⟩
    · simp [s3ReadFile, hhead, hmis]
    · simp [s3StatFile, hhead, hmis]
    · simp [s3DeleteFile, hhead, hmis]
  · intro endpoint filePath offsetCacheLine headOut hhead
    have hmis : eTagMismatch "" headOut.eTag = false := rfl
    constructor
    · simp only [s3ReadFile, hhead, hmis, Bool.false_eq_true, if_false]
      rcases endpoint.getReply with e | g <;> rfl
    · simp only [s3DeleteFile, hhead, hmis, Bool.false_eq_true, if_false]
      rcases endpoint.deleteReply with e | g <;> rfl

/-- A passed global-settings comparison means every global setting agrees. -/
theorem checkGlobalsUnchanged_ok {old new : Config}
    (h : checkGlobalsUnchanged old new = .ok ()) : GlobalsAgree old new := by
  rw [checkGlobalsUnchanged] at h
  by_cases h1 : old.mscpVersion = new.mscpVersion
  swap
  · rw [if_pos h1] at h
    exact Except.noConfusion h
  rw [if_neg (not_not_intro h1)] at h
  by_cases h2 : old.mountName = new.mountName
  swap
  · rw [if_pos h2] at h
    exact Except.noConfusion h
  rw [if_neg (not_not_intro h2)] at h
  by_cases h3 : old.mountPoint = new.mountPoint
  swap
  · rw [if_pos h3] at h
    exact Except.noConfusion h
  rw [if_neg (not_not_intro h3)] at h
  by_cases h4 : old.uid = new.uid
  swap
  · rw [if_pos h4] at h
    exact Except.noConfusion h
  rw [if_neg (not_not_intro h4)] at h
  by_cases h5 : old.gid = new.gid
  swap
  · rw [if_pos h5] at h
    exact Except.noConfusion h
  rw [if_neg (not_not_intro h5)] at h
  by_cases h6 : old.dirPerm = new.dirPerm
  swap
  · rw [if_pos h6] at h
    exact Except.noConfusion h
  rw [if_neg (not_not_intro h6)] at h
  by_cases h7 : old.allowOther = new.allowOther
  swap
  · rw [if_pos h7] at h
    exact Except.noConfusion h
  rw [if_neg (not_not_intro h7)] at h
  by_cases h8 : old.maxWrite = new.maxWrite
  swap
  · rw [if_pos h8] at h
    exact Except.noConfusion h
  rw [if_neg (not_not_intro h8)] at h
  by_cases h9 : old.entryAttrTTL = new.entryAttrTTL
  swap
  · rw [if_pos h9] at h
    exact Except.noConfusion h
  rw [if_neg (not_not_intro h9)] at h
  by_cases h10 : old.evictableInodeTTL = new.evictableInodeTTL
  swap
  · rw [if_pos h10] at h
    exact Except.noConfusion h
  rw [if_neg (not_not_intro h10)] at h
  by_cases h11 : old.cacheLineSize = new.cacheLineSize
  swap
  · rw [if_pos h11] at h
    exact Except.noConfusion h
  rw [if_neg (not_not_intro h11)] at h
  by_cases h12 : old.cacheLines = new.cacheLines
  swap
  · rw [if_pos h12] at h
    exact Except.noConfusion h
  rw [if_neg (not_not_intro h12)] at h
  by_cases h13 : old.dirtyCacheLinesFlushTrigger = new.dirtyCacheLinesFlushTrigger
  swap
  · rw [if_pos h13] at h
    exact Except.noConfusion h
  rw [if_neg (not_not_intro h13)] at h
  by_cases h14 : old.dirtyCacheLinesMax = new.dirtyCacheLinesMax
  swap
  · rw [if_pos h14] at h
    exact Except.noConfusion h
  rw [if_neg (not_not_intro h14)] at h
  by_cases h15 : old.autoSIGHUPInterval = new.autoSIGHUPInterval
  swap
  · rw [if_pos h15] at h
    exact Except.noConfusion h
  rw [if_neg (not_not_intro h15)] at h
  exact ⟨h1, h2, h3, h4, h5, h6, h7, h8, h9, h10, h11, h12, h13, h14, h15⟩

/-- A passed per-backend comparison means every compared field agrees. -/
theorem checkBackendUnchanged_ok {d : String} {ob nb : Backend}
    (h : checkBackendUnchanged d ob nb = .ok ()) : BackendAgrees ob nb := by
  rw [checkBackendUnchanged] at h
  by_cases h1 : ob.readOnly = nb.readOnly
  swap
  · rw [if_pos h1] at h
    exact Except.noConfusion h
  rw [if_neg (not_not_intro h1)] at h
  by_cases h2 : ob.flushOnClose = nb.flushOnClose
  swap
  · rw [if_pos h2] at h
    exact Except.noConfusion h
  rw [if_neg (not_not_intro h2)] at h
  by_cases h3 : ob.uid = nb.uid
  swap
  · rw [if_pos h3] at h
    exact Except.noConfusion h
  rw [if_neg (not_not_intro h3)] at h
  by_cases h4 : ob.gid = nb.gid
  swap
  · rw [if_pos h4] at h
    exact Except.noConfusion h
  rw [if_neg (not_not_intro h4)] at h
  by_cases h5 : ob.dirPerm = nb.dirPerm
  swap
  · rw [if_pos h5] at h
    exact Except.noConfusion h
  rw [if_neg (not_not_intro h5)] at h
  by_cases h6 : ob.filePerm = nb.filePerm
  swap
  · rw [if_pos h6] at h
    exact Except.noConfusion h
  rw [if_neg (not_not_intro h6)] at h
  by_cases h7 : ob.directoryPageSize = nb.directoryPageSize
  swap
  · rw [if_pos h7] at h
    exact Except.noConfusion h
  rw [if_neg (not_not_intro h7)] at h
  by_cases h8 : ob.multiPartCacheLineThreshold = nb.multiPartCacheLineThreshold
  swap
  · rw [if_pos h8] at h
    exact Except.noConfusion h
  rw [if_neg (not_not_intro h8)] at h
  by_cases h9 : ob.uploadPartCacheLines = nb.uploadPartCacheLines
  swap
  · rw [if_pos h9] at h
    exact Except.noConfusion h
  rw [if_neg (not_not_intro h9)] at h
  by_cases h10 : ob.uploadPartConcurrency = nb.uploadPartConcurrency
  swap
  · rw [if_pos h10] at h
    exact Except.noConfusion h
  rw [if_neg (not_not_intro h10)] at h
  by_cases h11 : ob.bucketContainerName = nb.bucketContainerName
  swap
  · rw [if_pos h11] at h
    exact Except.noConfusion h
  rw [if_neg (not_not_intro h11)] at h
  by_cases h12 : ob.prefixStr = nb.prefixStr
  swap
  · rw [if_pos h12] at h
    exact Except.noConfusion h
  rw [if_neg (not_not_intro h12)] at h
  by_cases h13 : ob.traceLevel = nb.traceLevel
  swap
  · rw [if_pos h13] at h
    exact Except.noConfusion h
  rw [if_neg (not_not_intro h13)] at h
  by_cases h14 : ob.backendTypeName = nb.backendTypeName
  swap
  · rw [if_pos h14] at h
    exact Except.noConfusion h
  rw [if_neg (not_not_intro h14)] at h
  by_cases hAz : ob.backendTypeName = "Azure" ∨ ob.backendTypeName = "GCP"
      ∨ ob.backendTypeName = "OCI"
  · rw [if_pos hAz] at h
    exact Except.noConfusion h
  rw [if_neg hAz] at h
  by_cases hS3 : ob.backendTypeName = "S3"
  swap
  · rw [if_neg hS3] at h
    exact Except.noConfusion h
  rw [if_pos hS3] at h
  by_cases h15 : ob.s3.accessKeyID = nb.s3.accessKeyID
  swap
  · rw [if_pos h15] at h
    exact Except.noConfusion h
  rw [if_neg (not_not_intro h15)] at h
  by_cases h16 : ob.s3.secretAccessKey = nb.s3.secretAccessKey
  swap
  · rw [if_pos h16] at h
    exact Except.noConfusion h
  rw [if_neg (not_not_intro h16)] at h
  by_cases h17 : ob.s3.region = nb.s3.region
  swap
  · rw [if_pos h17] at h
    exact Except.noConfusion h
  rw [if_neg (not_not_intro h17)] at h
  by_cases h18 : ob.s3.endpoint = nb.s3.endpoint
  swap
  · rw [if_pos h18] at h
    exact Except.noConfusion h
  rw [if_neg (not_not_intro h18)] at h
  by_cases h19 : ob.s3.allowHTTP = nb.s3.allowHTTP
  swap
  · rw [if_pos h19] at h
    exact Except.noConfusion h
  rw [if_neg (not_not_intro h19)] at h
  by_cases h20 : ob.s3.skipTLSCertificateVerify = nb.s3.skipTLSCertificateVerify
  swap
  · rw [if_pos h20] at h
    exact Except.noConfusion h
  rw [if_neg (not_not_intro h20)] at h
  by_cases h21 : ob.s3.virtualHostedStyleRequest = nb.s3.virtualHostedStyleRequest
  swap
  · rw [if_pos h21] at h
    exact Except.noConfusion h
  rw [if_neg (not_not_intro h21)] at h
  by_cases h22 : ob.s3.unsignedPayload = nb.s3.unsignedPayload
  swap
  · rw [if_pos h22] at h
    exact Except.noConfusion h
  rw [if_neg (not_not_intro h22)] at h
  by_cases h23 : ob.s3.retryBaseDelay = nb.s3.retryBaseDelay
  swap
  · rw [if_pos h23] at h
    exact Except.noConfusion h
  rw [if_neg (not_not_intro h23)] at h
  by_cases h24 : ob.s3.retryNextDelayMultiplier = nb.s3.retryNextDelayMultiplier
  swap
  · rw [if_pos h24] at h
    exact Except.noConfusion h
  rw [if_neg (not_not_intro h24)] at h
  by_cases h25 : ob.s3.retryMaxDelay = nb.s3.retryMaxDelay
  swap
  · rw [if_pos h25] at h
    exact Except.noConfusion h
  rw [if_neg (not_not_intro h25)] at h
  refine ⟨h1, h2, h3, h4, h5, h6, h7, h8, h9, h10, h11, h12, h13, h14, ?_⟩
  ext1 <;> assumption

/-- A passed common-backends comparison means every backend present in both
configurations agrees field-for-field. -/
theorem checkCommonBackendsUnchanged_ok {newCfg : Config} :
    ∀ {l : List Backend}, checkCommonBackendsUnchanged newCfg l = .ok () →
      ∀ ob ∈ l, ∀ nb, findBackend newCfg ob.dirName = some nb → BackendAgrees ob nb := by
  intro l
  induction l with
  | nil =>
    intro _ ob hob
    simp at hob
  | cons b rest ih =>
    intro h ob hob nb hfind
    rw [checkCommonBackendsUnchanged] at h
    rcases List.mem_cons.mp hob with rfl | hob'
    · simp only [hfind] at h
      rcases hb : checkBackendUnchanged ob.dirName ob nb with e | u
      · simp only [hb] at h
        exact Except.noConfusion h
      · exact checkBackendUnchanged_ok (by rw [hb])
    · rcases hf : findBackend newCfg b.dirName with _ | nb'
      · simp only [hf] at h
        exact ih h ob hob' nb hfind
      · simp only [hf] at h
        rcases hb : checkBackendUnchanged b.dirName b nb' with e | u
        · simp only [hb] at h
          exact Except.noConfusion h
        · simp only [hb] at h
          exact ih h ob hob' nb hfind

/-- C1: with a configuration already applied, a reload candidate that changes
any global setting, or any compared field of any backend present in both the
old and the new configuration, is rejected with an error and the state — the
applied configuration, the mounted backends, and both pending queues — is left
unchanged; an accepted reload changes the state only by queueing whole
backends absent from the new document to unmount and whole new backends to
mount. -/
theorem C1_reload_gate :
    ∀ (st : ReloadState) (oldCfg newCfg : Config), st.applied = some oldCfg →
      ((¬ GlobalsAgree oldCfg newCfg
          ∨ ∃ ob nb, ob ∈ oldCfg.backends ∧ findBackend newCfg ob.dirName = some nb
              ∧ ¬ BackendAgrees ob nb) →
        (checkConfigReload st newCfg).1 = st
          ∧ (checkConfigReload st newCfg).2.isSome = true)
      ∧ ((checkConfigReload st newCfg).2 = none →
        (checkConfigReload st newCfg).1 =
          { st with
              backendsToUnmount := st.backendsToUnmount ++
                oldCfg.backends.filter (fun ob => (findBackend newCfg ob.dirName).isNone)
              backendsToMount := st.backendsToMount ++
                newCfg.backends.filter
                  (fun nb => (findBackend oldCfg nb.dirName).isNone) }) := by
  intro st oldCfg newCfg happlied
  constructor
  · intro hdiff
    rcases hg : checkGlobalsUnchanged oldCfg newCfg with e | u
    · simp [checkConfigReload, happlied, hg]
    · rcases hc : checkCommonBackendsUnchanged newCfg oldCfg.backends with e | u'
      · simp [checkConfigReload, happlied, hg, hc]
      · exfalso
        rcases hdiff with hng | ⟨ob, nb, hmem, hfind, hnagree⟩
        · exact hng (checkGlobalsUnchanged_ok (by rw [hg]))
        · exact hnagree (checkCommonBackendsUnchanged_ok (by rw [hc]) ob hmem nb hfind)
  · intro hnone
    rcases hg : checkGlobalsUnchanged oldCfg newCfg with e | u
    · simp [checkConfigReload, happlied, hg] at hnone
    · rcases hc : checkCommonBackendsUnchanged newCfg oldCfg.backends with e | u'
      · simp [checkConfigReload, happlied, hg, hc] at hnone
      · simp [checkConfigReload, happlied, hg, hc]

/-- Witness for C1: reloading with only `mountname` changed is rejected and
leaves the state untouched. -/
theorem C1_reload_gate_witness :
    (checkConfigReload ⟨some witnessConfigA, [], [], []⟩ witnessConfigB).1 =
        ⟨some witnessConfigA, [], [], []⟩
      ∧ (checkConfigReload ⟨some witnessConfigA, [], [], []⟩ witnessConfigB).2.isSome
          = true :=
  (C1_reload_gate ⟨some witnessConfigA, [], [], []⟩ witnessConfigA witnessConfigB rfl).1
    (Or.inl (fun hga => absurd hga.2.1 (by decide)))

/-- Counterexample for C6: the general clause of the claim — "the remainder,
if non-empty, becomes the prefix" — fails at `base_path = "bucket/"`: the
remainder after the first "/" is empty, so the claim's reading gives prefix
"", but the source appends a "/" unconditionally and synthesizes prefix "/". -/
theorem C6_base_path_counterexample :
    basePathPrefix "bucket/" = "/"
      ∧ basePathPrefixPerClaim "bucket/" = ""
      ∧ translateProfile "profile1" (some (compatS3Profile "bucket/")) =
          .backend ⟨"profile1", "bucket", "/", "S3",
            ⟨"AK", "SK", "region1", "endpoint.example", false⟩⟩
      ∧ ("/" : String) ≠ "" := by
  exact ⟨by decide, by decide, by decide, by decide⟩

/-- C6 (amended): a dialect-0 profile with storage_provider.type "s3",
credentials_provider.type "S3Credentials" and base_path "bucket/sub/"
synthesizes exactly one native backend with dir_name = profile name,
bucket_container_name "bucket", prefix "sub/" and backend_type "S3"; in
general the bucket name is the base_path segment before the first "/", a
base_path without "/" yields an empty prefix, and a base_path containing "/"
always yields a non-empty, slash-terminated prefix (the remainder with "/"
appended when missing — including the empty remainder, which yields "/"). -/
theorem C6_compat_translation :
    (∀ skippedSet : List String,
      translateProfiles skippedSet [("profile1", some (compatS3Profile "bucket/sub/"))] =
        .ok { backends := [⟨"profile1", "bucket", "sub/", "S3",
                ⟨"AK", "SK", "region1", "endpoint.example", false⟩⟩],
              skippedSet := skippedSet, logged := [] })
    ∧ (∀ basePath : String,
        basePathBucketContainerName basePath = (splitOnSlash basePath).headD "")
    ∧ (∀ basePath : String,
        (splitOnSlash basePath).length = 1 → basePathPrefix basePath = "")
    ∧ (∀ basePath : String, 2 ≤ (splitOnSlash basePath).length →
        basePathPrefix basePath ≠ ""
          ∧ endsWithSlash (basePathPrefix basePath) = true) := by
  refine ⟨fun _ => rfl, ?_, ?_, ?_⟩
  · intro basePath
    rw [basePathBucketContainerName]
    rcases splitOnSlash basePath with _ | ⟨b, rest⟩ <;> rfl
  · intro basePath h
    rw [basePathPrefix]
    rcases hs : splitOnSlash basePath with _ | ⟨b, rest⟩
    · rfl
    · rcases rest with _ | ⟨c, rest'⟩
      · rfl
      · rw [hs] at h
        simp at h
  · intro basePath h
    rw [basePathPrefix]
    rcases hs : splitOnSlash basePath with _ | ⟨b, rest⟩
    · rw [hs] at h
      simp at h
    · rcases rest with _ | ⟨c, rest'⟩
      · rw [hs] at h
        simp at h
      · dsimp only
        set p := joinWithSlash (c :: rest') with hp
        by_cases he : endsWithSlash p = true
        · rw [if_pos he]
          refine ⟨?_, he⟩
          intro hcon
          rw [hcon] at he
          simp [endsWithSlash] at he
        · rw [if_neg he]
          constructor
          · intro hcon
            have hlen := congrArg String.length hcon
            rw [String.length_append] at hlen
            simp at hlen
            exact absurd hlen.2 (by decide)
          · rw [endsWithSlash]
            have hdata : (p ++ "/").toList = p.toList ++ ['/'] := by
              simp [String.toList, String.data_append]
            rw [hdata, List.getLast?_concat]
            simp

/-- Witness for C6: the hypothesis-bearing split clauses applied at concrete
base_paths with and without a slash. -/
theorem C6_compat_translation_witness :
    basePathPrefix "bucket" = "" ∧ basePathPrefix "bucket/sub" ≠ "" := by
  exact ⟨C6_compat_translation.2.2.1 "bucket" (by decide),
    (C6_compat_translation.2.2.2 "bucket/sub" (by decide)).1⟩

/-- Counterexample for C9: an incomplete profile of a *supported* storage
provider type — `storage_provider.type = "s3"` with no options section — is a
hard `checkConfigFile` error, so it is not the case that no shape of
incomplete profile entry causes failure. -/
theorem C9_incomplete_profile_counterexample :
    translateProfiles [] [("p", some ⟨.val ⟨some "s3", .absent⟩, .absent⟩)] =
      .error "missing profile \"p\" storage_provider options" := rfl

/-- C9 (amended): a profile lacking a storage_provider section, or whose
storage_provider.type is a string other than "s3"/"s8k", is skipped without
error; the skip is recorded and logged only the first time the profile name is
seen (the skipped set persists across reparses).  Malformed or incomplete
shapes — a non-map profile, a non-map storage_provider, a missing or
non-string storage_provider.type, or a supported-type profile with missing or
bad options/credentials — do fail, as `C9_incomplete_profile_counterexample`
shows. -/
theorem C9_skip_semantics :
    ∀ (st : TranslateState) (profileName : String) (prof : Profile)
      (rest : List (String × Option Profile)),
      (prof.storageProvider = .absent
        ∨ ∃ sp t, prof.storageProvider = .val sp ∧ sp.typeName = some t ∧
            t ≠ "s3" ∧ t ≠ "s8k") →
      translateProfile profileName (some prof) = .skipped
        ∧ translateProfilesAux st ((profileName, some prof) :: rest) =
            (if profileName ∈ st.skippedSet then translateProfilesAux st rest
             else translateProfilesAux
               { st with skippedSet := st.skippedSet ++ [profileName]
                         logged := st.logged ++ [profileName] } rest) := by
  intro st profileName prof rest hskip
  have h1 : translateProfile profileName (some prof) = .skipped := by
    rcases hskip with habs | ⟨sp, t, hval, htype, hs3, hs8k⟩
    · simp [translateProfile, habs]
    · simp only [translateProfile, hval, htype]
      rw [if_neg]
      simp [hs3, hs8k]
  refine ⟨h1, ?_⟩
  rw [translateProfilesAux, h1]

/-- Witness for C9: a profile with no storage_provider whose name is already
in the skipped set is passed over without another log entry and without
error. -/
theorem C9_skip_semantics_witness :
    translateProfilesAux ⟨[], ["p"], []⟩ [("p", some ⟨Field.absent, Field.absent⟩)] =
      .ok ⟨[], ["p"], []⟩ := by
  rw [(C9_skip_semantics ⟨[], ["p"], []⟩ "p" ⟨Field.absent, Field.absent⟩ []
    (Or.inl rfl)).2]
  rfl

/-- Witness for C3: a concrete endpoint whose object currently has ETag
"\"abc\"" (quoted, as S3 returns it), probed with the stale precondition
"old": all three operations stop after the head request with the hard
mismatch error. -/
theorem C3_etag_precondition_witness :
    s3ReadFile
        ⟨.ok ⟨some "\"abc\"", 0, 4⟩, .ok ⟨some "\"abc\"", [1, 2, 3, 4]⟩, .ok ()⟩
        ⟨"k", 0, "old"⟩ =
      ([.headObject], .err "eTag mismatch") := by
  exact (C3_etag_precondition.2.1
    ⟨.ok ⟨some "\"abc\"", 0, 4⟩, .ok ⟨some "\"abc\"", [1, 2, 3, 4]⟩, .ok ()⟩
    "k" 0 "old" ⟨some "\"abc\"", 0, 4⟩ "\"abc\"" rfl (by decide) rfl (by decide)).1

/-- C4: the code contradicts the claim (and its own `isEvictable` predicate
and the documented LRU invariant of globals.go line 179): `DoOpen` attaches a
handle without removing the inode from the eviction LRU, and the evictor
checks only last-lookup age, so the open, unaged-by-lookup inode 3 — which
`isEvictable` itself reports as not evictable — is removed from the inode
table and its backend's inode map at the first tick after the TTL, while the
FUSE root and the backend root survive.  One tick earlier nothing is
evicted. -/
theorem C4_evictor_ignores_open_handle :
    ((openedFileState.inodeMap.lookup 3).map (fun i => i.fhMap.length) = some 1)
      ∧ ((openedFileState.inodeMap.lookup 3).map (fun i => isEvictable i) = some false)
      ∧ openedFileState.inodeLRU = [3]
      ∧ ((inodeEvictor openedFileState 9).inodeMap.lookup 3).isSome = true
      ∧ (inodeEvictor openedFileState 10).inodeMap.lookup 3 = none
      ∧ (inodeEvictor openedFileState 10).backends.map (fun b => b.inodeMap) = [[]]
      ∧ ((inodeEvictor openedFileState 10).inodeMap.lookup 1).isSome = true
      ∧ ((inodeEvictor openedFileState 10).inodeMap.lookup 2).isSome = true := by
  decide

/-- C5: both rename handlers return EXDEV (18, the cross-device error) and
return the daemon state exactly as given — no component is read or written. -/
theorem C5_rename_exdev :
    ∀ (st : FSState) (renameIn : RenameIn) (rename2In : Rename2In),
      doRename st renameIn = (st, EXDEV)
        ∧ doRename2 st rename2In = (st, EXDEV)
        ∧ EXDEV = 18 :=
  fun _ _ _ => ⟨rfl, rfl, rfl⟩

/-- Updating a present key of the cache-line table stores exactly the new
line under that key. -/
theorem lookup_setCacheLineList (l : List ((Nat × Nat) × CacheLine)) (k : Nat × Nat)
    (v : CacheLine) (h : (l.lookup k).isSome = true) :
    (l.map (fun p => if p.1 = k then (k, v) else p)).lookup k = some v := by
  induction l with
  | nil => simp at h
  | cons p rest ih =>
    obtain ⟨k', v'⟩ := p
    by_cases hk : k' = k
    · subst hk
      simp [List.lookup_cons]
    · have hne : (k == k') = false := by
        rw [beq_eq_false_iff_ne]
        exact fun he => hk he.symm
      simp only [List.lookup_cons, hne] at h
      simp only [List.map_cons, if_neg hk, List.lookup_cons, hne]
      exact ih h

/-- A `DoRead` iteration that reaches a Clean, zero-length cache line at the
line's own start offset takes the EOF break: success with the data
accumulated so far. -/
theorem doReadLoop_aligned_empty_clean (oracle : FetchOracle)
    (nodeID fhNonce readInSize fuel : Nat) (st : FSState) (curOffset : Nat)
    (data : List Nat) (inode : Inode) (fh : FileHandle) (cl : CacheLine)
    (hinode : st.inodeMap.lookup nodeID = some inode)
    (htype : inode.inodeType = .fileObject)
    (hfh : inode.fhMap.find? (fun f => f.nonce == fhNonce) = some fh)
    (hreads : fh.allowReads = true)
    (hcl : st.cacheLines.lookup (nodeID, curOffset / st.cacheLineSize) = some cl)
    (hclean : cl.lineState = .clean)
    (hempty : cl.content = [])
    (hmod : curOffset % st.cacheLineSize = 0) :
    (doReadLoop oracle nodeID fhNonce readInSize (fuel + 1) st curOffset data).2 =
      .success data := by
  have hdm := Nat.div_add_mod curOffset st.cacheLineSize
  rw [hmod, Nat.add_zero] at hdm
  have hstart : curOffset - curOffset / st.cacheLineSize * st.cacheLineSize = 0 := by
    rw [Nat.mul_comm, hdm, Nat.sub_self]
  by_cases hlen : data.length < readInSize
  · simp only [doReadLoop, if_pos hlen, hinode, htype, hfh, hreads, hcl]
    simp [hclean, hempty, hstart]
  · simp only [doReadLoop, if_neg hlen]

/-- Counterexample for C10: a `DoRead` whose starting offset lies strictly
inside the failed (now Clean and empty) cache line does not return success —
it reaches the slice `cacheLine.content[start:limit]` with `limit < start`, a
Go slice-bounds panic that crashes the daemon.  Here: offset 1, size 2, every
backend fetch failing. -/
theorem C10_midline_read_counterexample :
    (doRead (fun _ _ => .error "network failure") openedFileState 3 4 1 2).2 =
        .crash
      ∧ ReadResult.crash ≠ .success [] := by
  exact ⟨by decide, by decide⟩

/-- C10 (amended): a failed background cache-line fetch — whether the backend
readFile errors or the owning inode has left the inode table — leaves the
line Clean with empty ETag and empty content and appends it to the clean-line
LRU; a `DoRead` that reaches that line at a line-aligned boundary (its first
line when the offset is line-aligned, or any later line reached by
accumulation) returns success with the bytes accumulated so far, treating the
failed range as end-of-file; but a `DoRead` whose starting offset falls
strictly inside the failed (empty) line hits a slice-bounds panic instead of
returning success, as `C10_midline_read_counterexample` shows. -/
theorem C10_failed_fetch_reads_as_eof :
    (∀ (st : FSState) (k : Nat × Nat) (oracle : FetchOracle),
      (st.cacheLines.lookup k).isSome = true →
      st.inodeMap.lookup k.1 = none →
        (cacheLineFetch oracle st k.1 k.2).cacheLines.lookup k =
            some { lineState := .clean, inodeNumber := k.1, lineNumber := k.2
                   eTag := "", content := [] }
          ∧ (cacheLineFetch oracle st k.1 k.2).cleanCacheLineLRU =
              st.cleanCacheLineLRU ++ [k])
    ∧ (∀ (st : FSState) (k : Nat × Nat) (oracle : FetchOracle) (e : String)
        (inode : Inode),
      (st.cacheLines.lookup k).isSome = true →
      st.inodeMap.lookup k.1 = some inode →
      oracle inode.objectPath k.2 = .error e →
        (cacheLineFetch oracle st k.1 k.2).cacheLines.lookup k =
            some { lineState := .clean, inodeNumber := k.1, lineNumber := k.2
                   eTag := "", content := [] }
          ∧ (cacheLineFetch oracle st k.1 k.2).cleanCacheLineLRU =
              st.cleanCacheLineLRU ++ [k])
    ∧ (∀ (oracle : FetchOracle) (nodeID fhNonce readInSize fuel : Nat)
        (st : FSState) (curOffset : Nat) (data : List Nat) (inode : Inode)
        (fh : FileHandle) (cl : CacheLine),
      st.inodeMap.lookup nodeID = some inode → inode.inodeType = .fileObject →
      inode.fhMap.find? (fun f => f.nonce == fhNonce) = some fh →
      fh.allowReads = true →
      st.cacheLines.lookup (nodeID, curOffset / st.cacheLineSize) = some cl →
      cl.lineState = .clean → cl.content = [] →
      curOffset % st.cacheLineSize = 0 →
        (doReadLoop oracle nodeID fhNonce readInSize (fuel + 1) st
            curOffset data).2 = .success data)
    ∧ ((doRead (fun _ _ => .error "network failure") openedFileState 3 4 0 8).2 =
          .success []
        ∧ (doRead (fun _ _ => .error "network failure") openedFileState
            3 4 0 8).1.cacheLines.lookup (3, 0) =
            some { lineState := .clean, inodeNumber := 3, lineNumber := 0
                   eTag := "", content := [] }
        ∧ (doRead (fun _ _ => .error "network failure") openedFileState
            3 4 0 8).1.cleanCacheLineLRU = [(3, 0)]) := by
  refine ⟨?_, ?_, ?_, by decide, by decide, by decide⟩
  · intro st k oracle hsome hnone
    obtain ⟨k1, k2⟩ := k
    simp only [cacheLineFetch, hnone]
    exact ⟨lookup_setCacheLineList st.cacheLines (k1, k2) _ hsome, rfl⟩
  · intro st k oracle e inode hsome hinode horacle
    obtain ⟨k1, k2⟩ := k
    simp only [cacheLineFetch, hinode, horacle]
    exact ⟨lookup_setCacheLineList st.cacheLines (k1, k2) _ hsome, rfl⟩
  · intro oracle nodeID fhNonce readInSize fuel st curOffset data inode fh cl
      hinode htype hfh hreads hcl hclean hempty hmod
    exact doReadLoop_aligned_empty_clean oracle nodeID fhNonce readInSize fuel st
      curOffset data inode fh cl hinode htype hfh hreads hcl hclean hempty hmod

/-- Witness for C10: the fetch-failure and aligned-read clauses applied in
the concrete opened-file scenario: the first read of line 0 with a failing
backend leaves the line Clean and empty on the clean LRU, and a second
aligned read over it returns success with no bytes. -/
theorem C10_failed_fetch_reads_as_eof_witness :
    ((cacheLineFetch (fun _ _ => .error "x")
        { openedFileState with
            cacheLines := [((3, 0),
              { lineState := .inbound, inodeNumber := 3, lineNumber := 0
                eTag := "", content := [] })]
            inboundCacheLineCount := 1 } 3 0).cacheLines.lookup (3, 0) =
        some { lineState := .clean, inodeNumber := 3, lineNumber := 0
               eTag := "", content := [] })
      ∧ (doReadLoop (fun _ _ => .error "x") 3 4 8 1
          { openedFileState with
              cacheLines := [((3, 0),
                { lineState := .clean, inodeNumber := 3, lineNumber := 0
                  eTag := "", content := [] })] } 0 []).2 = .success [] := by
  constructor
  · exact ((C10_failed_fetch_reads_as_eof.2.1
      { openedFileState with
          cacheLines := [((3, 0),
            { lineState := .inbound, inodeNumber := 3, lineNumber := 0
              eTag := "", content := [] })]
          inboundCacheLineCount := 1 } (3, 0) (fun _ _ => .error "x") "x"
      ((openedFileState.inodeMap.lookup 3).get (by decide))
      (by decide) (by decide) rfl).1)
  · exact (C10_failed_fetch_reads_as_eof.2.2.1 (fun _ _ => .error "x") 3 4 8 0
      { openedFileState with
          cacheLines := [((3, 0),
            { lineState := .clean, inodeNumber := 3, lineNumber := 0
              eTag := "", content := [] })] } 0 []
      ((openedFileState.inodeMap.lookup 3).get (by decide))
      ((((openedFileState.inodeMap.lookup 3).get (by decide)).fhMap.find?
        (fun f => f.nonce == 4)).get (by decide))
      { lineState := .clean, inodeNumber := 3, lineNumber := 0
        eTag := "", content := [] }
      (by decide) (by decide) (by decide) (by decide) (by decide) rfl rfl
      (by decide))

end Mscp
